import Mathlib

/-! Shallow embedding of the traffic-interception policy implemented in
`src/scripts/mitmproxy-addon.py` (class `GatewayInterceptor`), together with
proofs of the behavioural properties stated in the design specification.

The embedding models:
* the header collection of a flow's request as an ordered list of name/value
  pairs with case-insensitive name comparison (mitmproxy's `Headers`);
* the matcher `_should_intercept`, the request-phase rewrite `request`, and
  the response-phase correlation/cleanup `response` as pure functions on an
  explicit `Flow` value (stateful mutation becomes explicit state passing);
* the gateway-target resolution performed at startup (lines 40-43 of the
  source) over the output of URL parsing.
-/

/-- A header name folded to lower case, character by character. -/
def lowerName (s : String) : List Char := s.data.map Char.toLower

/-- Case-insensitive equality of header names, as provided by mitmproxy's
`Headers` multimap (an external collaborator of the addon). -/
def nameEq (a b : String) : Bool := lowerName a == lowerName b

/-- A flow's header collection: an ordered list of name/value pairs whose
names compare case-insensitively. -/
abbrev Headers := List (String × String)

/-- Read access `headers.get(k)` / `headers[k]`: the value of the first
entry whose name matches `k`, if any. -/
def hgetOpt : Headers → String → Option String
  | [], _ => none
  | p :: t, k => if nameEq p.1 k then some p.2 else hgetOpt t k

/-- Read with a default, `headers.get(k, d)`. -/
def hgetD (hs : Headers) (k d : String) : String := (hgetOpt hs k).getD d

/-- Membership test `k in headers`. -/
def hmem (hs : Headers) (k : String) : Bool := (hgetOpt hs k).isSome

/-- Removal of every entry whose name matches `k` (total helper). -/
def hdel : Headers → String → Headers
  | [], _ => []
  | p :: t, k => if nameEq p.1 k then hdel t k else p :: hdel t k

/-- Deletion `del headers[k]`: raises `KeyError` (modelled as `none`) when no entry
has name `k`, otherwise removes every entry with that name. -/
def hdelE (hs : Headers) (k : String) : Option Headers :=
  if hmem hs k then some (hdel hs k) else none

/-- Assignment `headers[k] = v`: replaces all existing values under name `k` with the
single new value `v`. -/
def hset (hs : Headers) (k v : String) : Headers := hdel hs k ++ [(k, v)]

/-- Python `str.endswith`: the suffix relation on character sequences. -/
def pyEndsWith (s suf : String) : Bool := suf.data.isSuffixOf s.data

/-- Python `str.startswith`: the prefix relation on character sequences. -/
def pyStartsWith (s pre : String) : Bool := pre.data.isPrefixOf s.data

/-- The startup-loaded configuration of the addon (module-level constants
`INTERCEPT_DOMAINS`, `INTERCEPT_PATH_PREFIX`, `GATEWAY_SCHEME`,
`GATEWAY_HOST`, `GATEWAY_PORT`, `GATEWAY_TOKEN`), immutable after load. -/
structure Config where
  domains : List String
  pathPref : String
  gatewayScheme : String
  gatewayHost : String
  gatewayPort : Nat
  gatewayToken : String
deriving DecidableEq

/-- A flow's mutable request (mitmproxy `flow.request`): destination fields,
method, path (which in mitmproxy includes the query string), headers, body. -/
structure Request where
  scheme : String
  host : String
  port : Nat
  method : String
  path : String
  headers : Headers
  body : String
deriving DecidableEq

/-- A flow's response (only the status code is consumed by the addon). -/
structure Response where
  status_code : Nat
deriving DecidableEq

/-- A request/response transaction as presented to the hooks. -/
structure HTTPFlow where
  request : Request
  response : Response
deriving DecidableEq

/-- mitmproxy `request.pretty_host` (external collaborator): the `Host`
header's value when present, otherwise the connection-level host. -/
def prettyHost (r : Request) : String := hgetD r.headers "Host" r.host

/-- The reserved original-host marker header name (`X-Original-Host`). -/
def hOrigHost : String := "X-Original-Host"

/-- The reserved intercepted-marker header name (`X-Intercepted-By`). -/
def hMarker : String := "X-Intercepted-By"

/-- The fixed value of the intercepted-marker header. -/
def markerValue : String := "cyber-drill-gateway"

/-- The `Authorization` header name. -/
def hAuth : String := "Authorization"

/-- The domain clause of `GatewayInterceptor._should_intercept`
(source lines 103-106): `any(host == domain or host.endswith("." + domain)
for domain in INTERCEPT_DOMAINS)`. -/
def domainMatch (domains : List String) (host : String) : Bool :=
  domains.any (fun domain => host == domain || pyEndsWith host ("." ++ domain))

/-- The matcher `GatewayInterceptor._should_intercept` (source lines 99-114). -/
def shouldIntercept (cfg : Config) (host path : String) : Bool :=
  if cfg.domains.isEmpty then false
  else if !domainMatch cfg.domains host then false
  else if (cfg.pathPref != "") && !pyStartsWith path cfg.pathPref then false
  else true

/-- The side effect of mitmproxy's `Request.host` setter (external
collaborator, documented as "Setting the host attribute also updates the
host header and authority information, if present"): an existing `Host`
header is rewritten to the newly assigned host value; when the request
carries no `Host` header, none is added. -/
def setHostHeader (hs : Headers) (v : String) : Headers :=
  if hmem hs "Host" then hset hs "Host" v else hs

/-- The request hook `GatewayInterceptor.request` (source lines 57-83): when the flow matches,
rewrite the destination to the gateway (the host assignment on line 70 also
rewriting an existing `Host` header through the `Request.host` setter),
replace the `Authorization` header with the gateway bearer token, and set
the two reserved marker headers; otherwise leave the flow untouched. -/
def requestHook (cfg : Config) (f : HTTPFlow) : HTTPFlow :=
  let host := prettyHost f.request
  let path := f.request.path
  if !shouldIntercept cfg host path then f
  else
    let original_host := host
    let r1 := { f.request with scheme := cfg.gatewayScheme }
    let r2 := { r1 with
                host := cfg.gatewayHost
                headers := setHostHeader r1.headers cfg.gatewayHost }
    let r3 := { r2 with port := cfg.gatewayPort }
    let r4 := { r3 with
                headers := hset r3.headers hAuth ("Bearer " ++ cfg.gatewayToken) }
    let r5 := { r4 with headers := hset r4.headers hOrigHost original_host }
    let r6 := { r5 with headers := hset r5.headers hMarker markerValue }
    { f with request := r6 }

/-- The correlation log record emitted in the response phase: original host,
request path, response status code. -/
structure ResponseLog where
  originalHost : String
  path : String
  status : Nat
deriving DecidableEq

/-- The response hook `GatewayInterceptor.response` (source lines 85-97): when the request
carries the intercepted marker with its fixed value, emit a correlation log
record and delete both reserved headers; otherwise do nothing. The result is
`none` when an uncaught `KeyError` would be raised (`del` on an absent name). -/
def responseHook (f : HTTPFlow) : Option (HTTPFlow × Option ResponseLog) :=
  if hgetOpt f.request.headers hMarker == some markerValue then
    let original_host := hgetD f.request.headers hOrigHost "unknown"
    let lg : ResponseLog :=
      { originalHost := original_host
        path := f.request.path
        status := f.response.status_code }
    match hdelE f.request.headers hMarker with
    | none => none
    | some hs1 =>
      let hs2 := if hmem hs1 hOrigHost then hdel hs1 hOrigHost else hs1
      some ({ f with request := { f.request with headers := hs2 } }, some lg)
  else
    some (f, none)

/-- The result of URL parsing consumed by the gateway-target resolution
(Python `urllib.parse.urlparse`): `scheme` is `""` when the URL has no
scheme, `hostname`/`port` are `none` when absent. -/
structure ParsedUrl where
  scheme : String
  hostname : Option String
  port : Option Nat
deriving DecidableEq

/-- Python `x or d` where `x` is an optional string (both `None` and the
empty string are falsy). -/
def pyOrStrOpt (o : Option String) (d : String) : String :=
  match o with
  | some s => if s = "" then d else s
  | none => d

/-- Python `x or d` on a plain string (the empty string is falsy). -/
def pyOrStr (s d : String) : String := if s = "" then d else s

/-- Python `x or d` where `x` is an optional number (both `None` and `0`
are falsy). -/
def pyOrNat (o : Option Nat) (d : Nat) : Nat :=
  match o with
  | some n => if n = 0 then d else n
  | none => d

/-- The resolved gateway destination. -/
structure GatewayTarget where
  scheme : String
  host : String
  port : Nat
deriving DecidableEq

/-- Gateway-target resolution (source lines 40-43): `GATEWAY_HOST`,
`GATEWAY_PORT`, `GATEWAY_SCHEME` computed from the parsed `GATEWAY_URL`,
with loopback host, scheme-dependent port, and `http` scheme as defaults. -/
def resolveGateway (p : ParsedUrl) : GatewayTarget :=
  { scheme := pyOrStr p.scheme "http"
    host := pyOrStrOpt p.hostname "127.0.0.1"
    port := pyOrNat p.port (if p.scheme == "https" then 443 else 80) }

/-- Splits a character sequence at the first occurrence of the pattern
`pat`, returning the parts before and after it, or `none` when `pat` does
not occur. -/
def splitFirstSeq (pat : List Char) : List Char → Option (List Char × List Char)
  | [] => if pat = [] then some ([], []) else none
  | c :: t =>
    if pat.isPrefixOf (c :: t) then some ([], (c :: t).drop pat.length)
    else
      match splitFirstSeq pat t with
      | some (l, r) => some (c :: l, r)
      | none => none

/-- A non-empty all-decimal character sequence read as a number (Python
`int(...)` on a port string; `none` models both an absent port and the
`ValueError` a non-decimal port raises). -/
def decDigitsToNat (l : List Char) : Option Nat :=
  if l ≠ [] ∧ l.all Char.isDigit then
    some (l.foldl (fun n c => 10 * n + (c.toNat - 48)) 0)
  else none

/-- Modelled from the spec: the external Gateway Target Resolver's URL
parsing step (Python stdlib `urllib.parse.urlparse`, which is not part of
this repository), restricted to the `scheme://host[:port][/path]` shapes a
`GATEWAY_URL` takes: the scheme is what precedes `://` (lowercased), the
network location runs to the first `/`, `?` or `#`, the hostname is the
part of the network location after any `@` and before any `:` (lowercased,
`none` when empty), and the port is the decimal number after the `:`. -/
def urlparseModel (url : String) : ParsedUrl :=
  match splitFirstSeq "://".data url.data with
  | none => { scheme := "", hostname := none, port := none }
  | some (sch, rem) =>
    let netloc := rem.takeWhile (fun c => c != '/' && c != '?' && c != '#')
    let hostinfo := (netloc.reverse.takeWhile (fun c => c != '@')).reverse
    let hostPart := hostinfo.takeWhile (fun c => c != ':')
    let portChars := (hostinfo.dropWhile (fun c => c != ':')).drop 1
    { scheme := ⟨sch.map Char.toLower⟩
      hostname := if hostPart = [] then none else some ⟨hostPart.map Char.toLower⟩
      port := decDigitsToNat portChars }

/-! Helper lemmas about the header collection -/

theorem nameEq_true_iff (a b : String) :
    nameEq a b = true ↔ lowerName a = lowerName b := by
  simp [nameEq]

theorem nameEq_false_iff (a b : String) :
    nameEq a b = false ↔ ¬lowerName a = lowerName b := by
  simp [nameEq]

theorem nameEq_refl (a : String) : nameEq a a = true := by
  simp [nameEq]

theorem nameEq_symm (a b : String) : nameEq a b = nameEq b a := by
  rw [Bool.eq_iff_iff, nameEq_true_iff, nameEq_true_iff]
  exact eq_comm

theorem hgetOpt_hdel_self (hs : Headers) (k q : String) (h : nameEq q k = true) :
    hgetOpt (hdel hs k) q = none := by
  induction hs with
  | nil => rfl
  | cons p t ih =>
    by_cases hpk : nameEq p.1 k = true
    · simpa [hdel, hpk] using ih
    · rw [Bool.not_eq_true] at hpk
      have hpq : nameEq p.1 q = false := by
        rw [nameEq_false_iff]
        intro hc
        rw [nameEq_false_iff] at hpk
        rw [nameEq_true_iff] at h
        exact hpk (hc.trans h)
      simpa [hdel, hpk, hgetOpt, hpq] using ih

theorem hgetOpt_hdel_ne (hs : Headers) (k q : String) (h : nameEq q k = false) :
    hgetOpt (hdel hs k) q = hgetOpt hs q := by
  induction hs with
  | nil => rfl
  | cons p t ih =>
    by_cases hpk : nameEq p.1 k = true
    · have hpq : nameEq p.1 q = false := by
        rw [nameEq_false_iff]
        intro hc
        rw [nameEq_true_iff] at hpk
        rw [nameEq_false_iff] at h
        exact h (hc.symm.trans hpk)
      simpa [hdel, hpk, hgetOpt, hpq] using ih
    · rw [Bool.not_eq_true] at hpk
      by_cases hpq : nameEq p.1 q = true
      · simp [hdel, hpk, hgetOpt, hpq]
      · rw [Bool.not_eq_true] at hpq
        simpa [hdel, hpk, hgetOpt, hpq] using ih

theorem hgetOpt_append (l1 l2 : Headers) (q : String) :
    hgetOpt (l1 ++ l2) q = (hgetOpt l1 q).or (hgetOpt l2 q) := by
  induction l1 with
  | nil => simp [hgetOpt]
  | cons p t ih =>
    by_cases hpq : nameEq p.1 q = true
    · simp [hgetOpt, hpq]
    · rw [Bool.not_eq_true] at hpq
      simpa [hgetOpt, hpq] using ih

theorem hgetOpt_hset_self (hs : Headers) (k v q : String) (h : nameEq q k = true) :
    hgetOpt (hset hs k v) q = some v := by
  rw [hset, hgetOpt_append, hgetOpt_hdel_self hs k q h]
  have hkq : nameEq k q = true := by rw [nameEq_symm]; exact h
  simp [hgetOpt, hkq]

theorem hgetOpt_hset_ne (hs : Headers) (k v q : String) (h : nameEq q k = false) :
    hgetOpt (hset hs k v) q = hgetOpt hs q := by
  rw [hset, hgetOpt_append, hgetOpt_hdel_ne hs k q h]
  have hkq : nameEq k q = false := by rw [nameEq_symm]; exact h
  cases hq : hgetOpt hs q <;> simp [hgetOpt, hkq]

theorem countP_hdel_self (hs : Headers) (k : String) :
    (hdel hs k).countP (fun p => nameEq p.1 k) = 0 := by
  induction hs with
  | nil => rfl
  | cons p t ih =>
    by_cases hpk : nameEq p.1 k = true
    · simpa [hdel, hpk] using ih
    · rw [Bool.not_eq_true] at hpk
      simpa [hdel, hpk, List.countP_cons] using ih

theorem countP_hset_self (hs : Headers) (k v : String) :
    (hset hs k v).countP (fun p => nameEq p.1 k) = 1 := by
  rw [hset, List.countP_append, countP_hdel_self]
  simp [List.countP_cons, nameEq_refl]

theorem countP_hdel_other (hs : Headers) (k k2 : String) (h : nameEq k k2 = false) :
    (hdel hs k2).countP (fun p => nameEq p.1 k) =
      hs.countP (fun p => nameEq p.1 k) := by
  induction hs with
  | nil => rfl
  | cons p t ih =>
    by_cases hpk2 : nameEq p.1 k2 = true
    · have hpk : nameEq p.1 k = false := by
        rw [nameEq_false_iff]
        intro hc
        rw [nameEq_true_iff] at hpk2
        rw [nameEq_false_iff] at h
        exact h (hc.symm.trans hpk2)
      simpa [hdel, hpk2, List.countP_cons, hpk] using ih
    · rw [Bool.not_eq_true] at hpk2
      simpa [hdel, hpk2, List.countP_cons] using ih

theorem countP_hset_other (hs : Headers) (k k2 v : String) (h : nameEq k k2 = false) :
    (hset hs k2 v).countP (fun p => nameEq p.1 k) =
      hs.countP (fun p => nameEq p.1 k) := by
  rw [hset, List.countP_append, countP_hdel_other hs k k2 h]
  have hk2k : nameEq k2 k = false := by rw [nameEq_symm]; exact h
  simp [List.countP_cons, hk2k]

/-! Claim theorems: the matcher -/

/-- Claim C2: for every host, path and non-empty rule set, the domain component
of `_should_intercept` is true exactly when some rule domain equals the host
or the host ends with `"."` followed by that domain (logical OR across the
rule set); and host `"evild.com"` against rule `"d.com"` does not match. -/
theorem domainMatch_exists_iff (cfg : Config) (host path : String)
    (hne : cfg.domains ≠ []) :
    (domainMatch cfg.domains host = true ↔
      ∃ d ∈ cfg.domains, host = d ∨ pyEndsWith host ("." ++ d) = true) ∧
    domainMatch ["d.com"] "evild.com" = false := by
  constructor
  · rw [domainMatch, List.any_eq_true]
    constructor
    · rintro ⟨d, hd, hdm⟩
      rw [Bool.or_eq_true, beq_iff_eq] at hdm
      exact ⟨d, hd, hdm⟩
    · rintro ⟨d, hd, hdm⟩
      refine ⟨d, hd, ?_⟩
      rw [Bool.or_eq_true, beq_iff_eq]
      exact hdm
  · decide

theorem domainMatch_exists_iff_witness :
    ((domainMatch ["api.codeium.com"] "x.api.codeium.com" = true ↔
      ∃ d ∈ ["api.codeium.com"], "x.api.codeium.com" = d ∨
        pyEndsWith "x.api.codeium.com" ("." ++ d) = true) ∧
    domainMatch ["d.com"] "evild.com" = false) ∧
    domainMatch ["api.codeium.com"] "x.api.codeium.com" = true :=
  ⟨domainMatch_exists_iff
      ⟨["api.codeium.com"], "", "http", "127.0.0.1", 18790, "t"⟩
      "x.api.codeium.com" "/v1" (by decide),
    by decide⟩

/-- Claim C3: with an empty domain rule set, `_should_intercept` returns
`false` for every host and path (interception globally disabled). -/
theorem shouldIntercept_empty_domains (cfg : Config) (host path : String)
    (he : cfg.domains = []) : shouldIntercept cfg host path = false := by
  simp [shouldIntercept, he]

theorem shouldIntercept_empty_domains_witness :
    shouldIntercept ⟨[], "", "http", "127.0.0.1", 18790, "t"⟩
      "api.codeium.com" "/v1/chat/completions" = false :=
  shouldIntercept_empty_domains _ _ _ rfl

/-- Claim C4: when the domain component matches, a configured non-empty path
prefix makes `_should_intercept` true exactly when the path starts with that
prefix (byte-wise), an empty prefix admits every path, and the overall result
is the conjunction of domain match and path match. -/
theorem shouldIntercept_path_component (cfg : Config) (host path : String)
    (hd : domainMatch cfg.domains host = true) :
    (cfg.pathPref ≠ "" →
      (shouldIntercept cfg host path = true ↔
        pyStartsWith path cfg.pathPref = true)) ∧
    (cfg.pathPref = "" → shouldIntercept cfg host path = true) ∧
    shouldIntercept cfg host path =
      (domainMatch cfg.domains host &&
        (cfg.pathPref == "" || pyStartsWith path cfg.pathPref)) := by
  have hne : cfg.domains.isEmpty = false := by
    cases hd' : cfg.domains with
    | nil => rw [hd'] at hd; simp [domainMatch] at hd
    | cons a t => rfl
  refine ⟨?_, ?_, ?_⟩
  · intro hp
    have hp' : (cfg.pathPref == "") = false := by simp [hp]
    cases hps : pyStartsWith path cfg.pathPref <;>
      simp [shouldIntercept, hne, hd, bne, hp', hps]
  · intro hp
    simp [shouldIntercept, hne, hd, bne, hp]
  · cases hpp : (cfg.pathPref == "") <;>
      cases hps : pyStartsWith path cfg.pathPref <;>
        simp [shouldIntercept, hne, hd, bne, hpp, hps]

theorem shouldIntercept_path_component_witness :
    (("/v1" : String) ≠ "" →
      (shouldIntercept ⟨["api.codeium.com"], "/v1", "http", "127.0.0.1", 18790, "t"⟩
          "api.codeium.com" "/v1/chat/completions" = true ↔
        pyStartsWith "/v1/chat/completions" "/v1" = true)) ∧
    (("/v1" : String) = "" →
      shouldIntercept ⟨["api.codeium.com"], "/v1", "http", "127.0.0.1", 18790, "t"⟩
        "api.codeium.com" "/v1/chat/completions" = true) ∧
    shouldIntercept ⟨["api.codeium.com"], "/v1", "http", "127.0.0.1", 18790, "t"⟩
        "api.codeium.com" "/v1/chat/completions" =
      (domainMatch ["api.codeium.com"] "api.codeium.com" &&
        (("/v1" : String) == "" || pyStartsWith "/v1/chat/completions" "/v1")) :=
  shouldIntercept_path_component
    ⟨["api.codeium.com"], "/v1", "http", "127.0.0.1", 18790, "t"⟩
    "api.codeium.com" "/v1/chat/completions" (by decide)

/-- Claim C10: host matching is case-sensitive, byte-wise: a host that differs
from a rule domain only in letter case matches neither exactly nor as a
subdomain. -/
theorem domainMatch_case_sensitive (host d : String)
    (hcase : lowerName host = lowerName d) (hne : host ≠ d) :
    domainMatch [d] host = false := by
  have hlen : host.data.length = d.data.length := by
    have hl := congrArg List.length hcase
    simpa [lowerName] using hl
  have hbeq : (host == d) = false := by
    simp [hne]
  have hsuf : pyEndsWith host ("." ++ d) = false := by
    rw [pyEndsWith]
    by_contra hc
    rw [Bool.not_eq_false, List.isSuffixOf_iff_suffix] at hc
    have hle := hc.length_le
    have hdd : ("." ++ d).data.length = d.data.length + 1 := by
      rw [String.data_append]
      simp [show ("." : String).data = ['.'] from rfl]
    omega
  simp [domainMatch, hbeq, hsuf]

theorem domainMatch_case_sensitive_witness :
    domainMatch ["api.codeium.com"] "API.codeium.com" = false :=
  domainMatch_case_sensitive "API.codeium.com" "api.codeium.com"
    (by decide) (by decide)

/-! Helper equations for the two hooks -/

theorem requestHook_not_matched (cfg : Config) (f : HTTPFlow)
    (hm : shouldIntercept cfg (prettyHost f.request) f.request.path = false) :
    requestHook cfg f = f := by
  simp [requestHook, hm]

theorem requestHook_matched (cfg : Config) (f : HTTPFlow)
    (hm : shouldIntercept cfg (prettyHost f.request) f.request.path = true) :
    requestHook cfg f =
      { request :=
          { scheme := cfg.gatewayScheme
            host := cfg.gatewayHost
            port := cfg.gatewayPort
            method := f.request.method
            path := f.request.path
            headers := hset (hset (hset
                (setHostHeader f.request.headers cfg.gatewayHost)
                hAuth ("Bearer " ++ cfg.gatewayToken))
                hOrigHost (prettyHost f.request))
                hMarker markerValue
            body := f.request.body }
        response := f.response } := by
  simp [requestHook, hm]

theorem responseHook_unmarked (f : HTTPFlow)
    (h : hgetOpt f.request.headers hMarker ≠ some markerValue) :
    responseHook f = some (f, none) := by
  have hb : (hgetOpt f.request.headers hMarker == some markerValue) = false := by
    simpa using h
  simp [responseHook, hb]

theorem responseHook_marked (f : HTTPFlow)
    (h : hgetOpt f.request.headers hMarker = some markerValue) :
    responseHook f = some
      ({ f with request := { f.request with headers :=
          (if hmem (hdel f.request.headers hMarker) hOrigHost
            then hdel (hdel f.request.headers hMarker) hOrigHost
            else hdel f.request.headers hMarker) } },
        some { originalHost := hgetD f.request.headers hOrigHost "unknown"
               path := f.request.path
               status := f.response.status_code }) := by
  have hb : (hgetOpt f.request.headers hMarker == some markerValue) = true := by
    simp [h]
  have hmemM : hmem f.request.headers hMarker = true := by
    simp [hmem, h]
  simp [responseHook, hb, hdelE, hmemM]

theorem requestHook_matched_headers (cfg : Config) (f : HTTPFlow)
    (hm : shouldIntercept cfg (prettyHost f.request) f.request.path = true) :
    (requestHook cfg f).request.headers =
      hset (hset (hset (setHostHeader f.request.headers cfg.gatewayHost)
        hAuth ("Bearer " ++ cfg.gatewayToken))
        hOrigHost (prettyHost f.request))
        hMarker markerValue := by
  rw [requestHook_matched cfg f hm]

theorem hgetOpt_setHostHeader_ne (hs : Headers) (v q : String)
    (h : nameEq q "Host" = false) :
    hgetOpt (setHostHeader hs v) q = hgetOpt hs q := by
  rw [setHostHeader]
  cases hh : hmem hs "Host" with
  | false => simp
  | true => simpa using hgetOpt_hset_ne hs "Host" v q h

theorem hgetOpt_setHostHeader_host (hs : Headers) (v q : String)
    (h : nameEq q "Host" = true) :
    hgetOpt (setHostHeader hs v) q =
      (if hmem hs "Host" then some v else hgetOpt hs q) := by
  rw [setHostHeader]
  cases hh : hmem hs "Host" with
  | false => simp
  | true => simpa using hgetOpt_hset_self hs "Host" v q h

theorem countP_setHostHeader_other (hs : Headers) (k v : String)
    (h : nameEq k "Host" = false) :
    (setHostHeader hs v).countP (fun p => nameEq p.1 k) =
      hs.countP (fun p => nameEq p.1 k) := by
  rw [setHostHeader]
  cases hh : hmem hs "Host" with
  | false => simp
  | true => simpa using countP_hset_other hs k "Host" v h

/-- After the request phase deletes the marker when it is present with its
fixed value, neither reserved header resolves on the resulting flow. -/
theorem responseHook_marked_clean (g : HTTPFlow)
    (h : hgetOpt g.request.headers hMarker = some markerValue) :
    ∃ f' lg, responseHook g = some (f', some lg) ∧
      hgetOpt f'.request.headers hMarker = none ∧
      hgetOpt f'.request.headers hOrigHost = none := by
  cases hoh : hmem (hdel g.request.headers hMarker) hOrigHost with
  | false =>
    have hOHnone : hgetOpt (hdel g.request.headers hMarker) hOrigHost = none := by
      cases ho : hgetOpt (hdel g.request.headers hMarker) hOrigHost with
      | none => rfl
      | some v => rw [hmem, ho] at hoh; simp at hoh
    refine ⟨{ g with request :=
        { g.request with headers := hdel g.request.headers hMarker } },
      { originalHost := hgetD g.request.headers hOrigHost "unknown"
        path := g.request.path
        status := g.response.status_code }, ?_, ?_, ?_⟩
    · rw [responseHook_marked g h]
      simp [hoh]
    · exact hgetOpt_hdel_self _ _ _ (nameEq_refl _)
    · exact hOHnone
  | true =>
    refine ⟨{ g with request := { g.request with
        headers := hdel (hdel g.request.headers hMarker) hOrigHost } },
      { originalHost := hgetD g.request.headers hOrigHost "unknown"
        path := g.request.path
        status := g.response.status_code }, ?_, ?_, ?_⟩
    · rw [responseHook_marked g h]
      simp [hoh]
    · rw [show ({ g with request := { g.request with
          headers := hdel (hdel g.request.headers hMarker) hOrigHost } }
            : HTTPFlow).request.headers =
          hdel (hdel g.request.headers hMarker) hOrigHost from rfl,
        hgetOpt_hdel_ne _ _ _ (by decide)]
      exact hgetOpt_hdel_self _ _ _ (nameEq_refl _)
    · exact hgetOpt_hdel_self _ _ _ (nameEq_refl _)

/-! Fixtures used by the witnesses and the counterexample -/

/-- The source's default configuration: the default intercept domains, the
empty path-prefix filter, and the gateway target and token resolved from the
default `GATEWAY_URL`/`GATEWAY_TOKEN`. -/
def cfg0 : Config :=
  { domains := ["api.codeium.com", "server.codeium.com", "web-backend.codeium.com"]
    pathPref := ""
    gatewayScheme := "http"
    gatewayHost := "127.0.0.1"
    gatewayPort := 18790
    gatewayToken := "sk-deploy-001" }

/-- A flow that matches the default configuration. -/
def flowGood : HTTPFlow :=
  { request :=
      { scheme := "https"
        host := "api.codeium.com"
        port := 443
        method := "POST"
        path := "/v1/chat/completions"
        headers := [("Authorization", "Bearer old-secret"),
                    ("Content-Type", "application/json")]
        body := "hello" }
    response := { status_code := 200 } }

/-- A non-matching flow that arrives already carrying the reserved
intercepted-marker header with a foreign value. -/
def flowSpoof : HTTPFlow :=
  { request :=
      { scheme := "https"
        host := "example.com"
        port := 443
        method := "GET"
        path := "/"
        headers := [("X-Intercepted-By", "spoofed")]
        body := "" }
    response := { status_code := 502 } }

/-- A flow carrying the intercepted marker with its fixed value but no
original-host marker (the inconsistent intermediate state of C7). -/
def flowMarked : HTTPFlow :=
  { request :=
      { scheme := "http"
        host := "127.0.0.1"
        port := 18790
        method := "POST"
        path := "/v1/chat/completions"
        headers := [("X-Intercepted-By", "cyber-drill-gateway")]
        body := "" }
    response := { status_code := 200 } }

/-- A matched flow that carries a `Host` header, as a normal HTTP/1.1
request does. -/
def flowHosted : HTTPFlow :=
  { request :=
      { scheme := "https"
        host := "api.codeium.com"
        port := 443
        method := "POST"
        path := "/v1/chat/completions"
        headers := [("Host", "api.codeium.com"),
                    ("Content-Type", "application/json")]
        body := "hello" }
    response := { status_code := 200 } }

/-! Claim theorems: the rewriter -/

/-- Claim C5 (counterexample): the frame claim fails as stated: `flowHosted`
is a matched flow carrying a `Host` header, and the request-phase rewrite
changes that header — which is neither the `Authorization` header nor one of
the two marker headers — from the original host to the gateway host, because
the `Request.host` setter also rewrites an existing `Host` header. -/
theorem requestHook_host_header_changes :
    shouldIntercept cfg0 (prettyHost flowHosted.request)
      flowHosted.request.path = true ∧
    hgetOpt flowHosted.request.headers "Host" = some "api.codeium.com" ∧
    hgetOpt (requestHook cfg0 flowHosted).request.headers "Host" =
      some "127.0.0.1" := by
  refine ⟨by decide, by decide, by decide⟩

/-- Claim C5 (amended): for a matched flow, the request-phase rewrite changes
only the request's scheme, host, port, `Authorization` header, the two
reserved marker headers, and — when the request carries one — the `Host`
header, which the host assignment rewrites to the gateway host: the path
(and hence the query string it carries), method and body are unchanged, no
`Host` header is added when absent, and every header whose name matches none
of the four written names keeps its value. -/
theorem requestHook_frame (cfg : Config) (f : HTTPFlow)
    (hm : shouldIntercept cfg (prettyHost f.request) f.request.path = true) :
    (requestHook cfg f).request.path = f.request.path ∧
    (requestHook cfg f).request.method = f.request.method ∧
    (requestHook cfg f).request.body = f.request.body ∧
    (requestHook cfg f).request.scheme = cfg.gatewayScheme ∧
    (requestHook cfg f).request.host = cfg.gatewayHost ∧
    (requestHook cfg f).request.port = cfg.gatewayPort ∧
    (hmem f.request.headers "Host" = true →
      hgetOpt (requestHook cfg f).request.headers "Host" =
        some cfg.gatewayHost) ∧
    (hmem f.request.headers "Host" = false →
      hgetOpt (requestHook cfg f).request.headers "Host" = none) ∧
    ∀ q : String, nameEq q hAuth = false → nameEq q hOrigHost = false →
      nameEq q hMarker = false → nameEq q "Host" = false →
      hgetOpt (requestHook cfg f).request.headers q =
        hgetOpt f.request.headers q := by
  rw [requestHook_matched cfg f hm]
  refine ⟨rfl, rfl, rfl, rfl, rfl, rfl, ?_, ?_, ?_⟩
  · intro hh
    show hgetOpt (hset (hset (hset
        (setHostHeader f.request.headers cfg.gatewayHost)
        hAuth ("Bearer " ++ cfg.gatewayToken))
        hOrigHost (prettyHost f.request))
        hMarker markerValue) "Host" = some cfg.gatewayHost
    rw [hgetOpt_hset_ne _ _ _ _ (by decide), hgetOpt_hset_ne _ _ _ _ (by decide),
      hgetOpt_hset_ne _ _ _ _ (by decide),
      hgetOpt_setHostHeader_host _ _ _ (nameEq_refl _), hh]
    rfl
  · intro hh
    have hnone : hgetOpt f.request.headers "Host" = none := by
      cases ho : hgetOpt f.request.headers "Host" with
      | none => rfl
      | some w => rw [hmem, ho] at hh; simp at hh
    show hgetOpt (hset (hset (hset
        (setHostHeader f.request.headers cfg.gatewayHost)
        hAuth ("Bearer " ++ cfg.gatewayToken))
        hOrigHost (prettyHost f.request))
        hMarker markerValue) "Host" = none
    rw [hgetOpt_hset_ne _ _ _ _ (by decide), hgetOpt_hset_ne _ _ _ _ (by decide),
      hgetOpt_hset_ne _ _ _ _ (by decide),
      hgetOpt_setHostHeader_host _ _ _ (nameEq_refl _), hh]
    simpa using hnone
  · intro q hq1 hq2 hq3 hq4
    show hgetOpt (hset (hset (hset
        (setHostHeader f.request.headers cfg.gatewayHost)
        hAuth ("Bearer " ++ cfg.gatewayToken))
        hOrigHost (prettyHost f.request))
        hMarker markerValue) q = hgetOpt f.request.headers q
    rw [hgetOpt_hset_ne _ _ _ _ hq3, hgetOpt_hset_ne _ _ _ _ hq2,
      hgetOpt_hset_ne _ _ _ _ hq1, hgetOpt_setHostHeader_ne _ _ _ hq4]

theorem requestHook_frame_witness :
    (requestHook cfg0 flowHosted).request.path = flowHosted.request.path ∧
    (requestHook cfg0 flowHosted).request.method = flowHosted.request.method ∧
    (requestHook cfg0 flowHosted).request.body = flowHosted.request.body ∧
    hgetOpt (requestHook cfg0 flowHosted).request.headers "Host" =
      some cfg0.gatewayHost ∧
    hgetOpt (requestHook cfg0 flowHosted).request.headers "Content-Type" =
      hgetOpt flowHosted.request.headers "Content-Type" ∧
    hgetOpt (requestHook cfg0 flowGood).request.headers "Host" = none := by
  have h1 := requestHook_frame cfg0 flowHosted (by decide)
  have h2 := requestHook_frame cfg0 flowGood (by decide)
  exact ⟨h1.1, h1.2.1, h1.2.2.1,
    h1.2.2.2.2.2.2.1 (by decide),
    h1.2.2.2.2.2.2.2.2 "Content-Type" (by decide) (by decide) (by decide)
      (by decide),
    h2.2.2.2.2.2.2.2.1 (by decide)⟩

/-- Claim C6: for a matched flow, after the rewrite the `Authorization` header
holds exactly `"Bearer " ++ token` as a single value: the lookup yields that
value and exactly one header entry carries the `Authorization` name,
regardless of the credential the client supplied. -/
theorem requestHook_authorization (cfg : Config) (f : HTTPFlow)
    (hm : shouldIntercept cfg (prettyHost f.request) f.request.path = true) :
    hgetOpt (requestHook cfg f).request.headers hAuth =
      some ("Bearer " ++ cfg.gatewayToken) ∧
    (requestHook cfg f).request.headers.countP (fun p => nameEq p.1 hAuth) = 1 := by
  rw [requestHook_matched_headers cfg f hm]
  constructor
  · rw [hgetOpt_hset_ne _ _ _ _ (by decide), hgetOpt_hset_ne _ _ _ _ (by decide)]
    exact hgetOpt_hset_self _ _ _ _ (nameEq_refl _)
  · rw [countP_hset_other _ _ _ _ (by decide), countP_hset_other _ _ _ _ (by decide)]
    exact countP_hset_self _ _ _

theorem requestHook_authorization_witness :
    hgetOpt (requestHook cfg0 flowGood).request.headers hAuth =
      some ("Bearer " ++ cfg0.gatewayToken) ∧
    (requestHook cfg0 flowGood).request.headers.countP
      (fun p => nameEq p.1 hAuth) = 1 :=
  requestHook_authorization cfg0 flowGood (by decide)

/-! Claim theorems: the correlator -/

/-- Claim C7: `response` never fails: it returns a value on every flow; a flow
whose request lacks the intercepted-marker header is left unchanged with no
correlation record; and a flow carrying the marker (with its fixed value)
but lacking the original-host marker is logged with the sentinel
`"unknown"` rather than raising, after which both reserved headers are
absent from the request. -/
theorem responseHook_never_faults (f : HTTPFlow) :
    (responseHook f).isSome = true ∧
    (hgetOpt f.request.headers hMarker = none → responseHook f = some (f, none)) ∧
    (hgetOpt f.request.headers hMarker = some markerValue →
      hgetOpt f.request.headers hOrigHost = none →
      responseHook f = some
        ({ f with request :=
            { f.request with headers := hdel f.request.headers hMarker } },
          some { originalHost := "unknown"
                 path := f.request.path
                 status := f.response.status_code }) ∧
      hgetOpt (hdel f.request.headers hMarker) hMarker = none ∧
      hgetOpt (hdel f.request.headers hMarker) hOrigHost = none) := by
  refine ⟨?_, ?_, ?_⟩
  · by_cases hc : hgetOpt f.request.headers hMarker = some markerValue
    · rw [responseHook_marked f hc]; rfl
    · rw [responseHook_unmarked f hc]; rfl
  · intro h
    exact responseHook_unmarked f (by rw [h]; simp)
  · intro h h2
    have hOHdel : hgetOpt (hdel f.request.headers hMarker) hOrigHost = none := by
      rw [hgetOpt_hdel_ne _ _ _ (by decide)]; exact h2
    have hoh : hmem (hdel f.request.headers hMarker) hOrigHost = false := by
      rw [hmem, hOHdel]; rfl
    refine ⟨?_, hgetOpt_hdel_self _ _ _ (nameEq_refl _), hOHdel⟩
    rw [responseHook_marked f h]
    simp [hoh, hgetD, h2]

theorem responseHook_never_faults_witness :
    (responseHook flowSpoof).isSome = true ∧
    responseHook flowGood = some (flowGood, none) ∧
    (responseHook flowMarked = some
      ({ flowMarked with request :=
          { flowMarked.request with headers := hdel flowMarked.request.headers hMarker } },
        some { originalHost := "unknown"
               path := flowMarked.request.path
               status := flowMarked.response.status_code }) ∧
      hgetOpt (hdel flowMarked.request.headers hMarker) hMarker = none ∧
      hgetOpt (hdel flowMarked.request.headers hMarker) hOrigHost = none) :=
  ⟨(responseHook_never_faults flowSpoof).1,
    (responseHook_never_faults flowGood).2.1 (by decide),
    (responseHook_never_faults flowMarked).2.2 (by decide) (by decide)⟩

/-- Claim C9: the response phase classifies interception by value equality: a
flow whose intercepted-marker header holds any value other than
`"cyber-drill-gateway"` leaves the response phase unchanged (header still
present, no correlation record), while the exact value leads to a
correlation record and the marker being stripped. -/
theorem responseHook_value_equality (f : HTTPFlow) (v : String)
    (hv : hgetOpt f.request.headers hMarker = some v) :
    (v ≠ markerValue → responseHook f = some (f, none)) ∧
    (v = markerValue → ∃ f' lg, responseHook f = some (f', some lg) ∧
      hgetOpt f'.request.headers hMarker = none) := by
  constructor
  · intro hne
    exact responseHook_unmarked f (by rw [hv]; simp [hne])
  · intro he
    rw [he] at hv
    obtain ⟨f', lg, heq, hM, _⟩ := responseHook_marked_clean f hv
    exact ⟨f', lg, heq, hM⟩

theorem responseHook_value_equality_witness :
    responseHook flowSpoof = some (flowSpoof, none) :=
  (responseHook_value_equality flowSpoof "spoofed" (by decide)).1 (by decide)

/-! Claim theorems: the round-trip invariant -/

/-- Claim C1 (counterexample): the round-trip claim fails as stated: the
non-matching flow `flowSpoof`, whose client already supplied the reserved
intercepted-marker header with the foreign value `"spoofed"`, passes through
request phase and response phase completely unchanged, so the reserved
marker header is still present on the flow's request after the response
phase completes. -/
theorem roundTrip_marker_survives :
    responseHook (requestHook cfg0 flowSpoof) = some (flowSpoof, none) ∧
    hgetOpt flowSpoof.request.headers hMarker = some "spoofed" := by
  constructor
  · decide
  · decide

/-- Claim C1 (amended): for every configuration and every flow whose request
enters the request phase carrying neither reserved marker header, after the
request phase followed by the response phase neither reserved marker header
is present on the flow's request, whether or not the flow was intercepted. -/
theorem roundTrip_clean (cfg : Config) (f : HTTPFlow)
    (h1 : hgetOpt f.request.headers hMarker = none)
    (h2 : hgetOpt f.request.headers hOrigHost = none) :
    ∃ f' lg, responseHook (requestHook cfg f) = some (f', lg) ∧
      hgetOpt f'.request.headers hMarker = none ∧
      hgetOpt f'.request.headers hOrigHost = none := by
  by_cases hm : shouldIntercept cfg (prettyHost f.request) f.request.path = true
  · have hmk : hgetOpt (requestHook cfg f).request.headers hMarker =
        some markerValue := by
      rw [requestHook_matched_headers cfg f hm]
      exact hgetOpt_hset_self _ _ _ _ (nameEq_refl _)
    obtain ⟨f', lg, heq, hM, hOH⟩ := responseHook_marked_clean _ hmk
    exact ⟨f', some lg, heq, hM, hOH⟩
  · rw [Bool.not_eq_true] at hm
    rw [requestHook_not_matched cfg f hm]
    exact ⟨f, none, responseHook_unmarked f (by rw [h1]; simp), h1, h2⟩

theorem roundTrip_clean_witness :
    (∃ f' lg, responseHook (requestHook cfg0 flowGood) = some (f', lg) ∧
      hgetOpt f'.request.headers hMarker = none ∧
      hgetOpt f'.request.headers hOrigHost = none) ∧
    (∃ f' lg, responseHook (requestHook cfg0
        { flowSpoof with request := { flowSpoof.request with headers := [] } }) =
          some (f', lg) ∧
      hgetOpt f'.request.headers hMarker = none ∧
      hgetOpt f'.request.headers hOrigHost = none) :=
  ⟨roundTrip_clean cfg0 flowGood (by decide) (by decide),
    roundTrip_clean cfg0
      { flowSpoof with request := { flowSpoof.request with headers := [] } }
      (by decide) (by decide)⟩

/-! Claim theorems: the gateway target resolver -/

/-- Claim C8: the resolved gateway target defaults its host to the loopback
address when the parsed URL has no hostname and its port to 443 for the
`https` scheme and 80 otherwise when the URL carries no explicit port; on
the concrete URLs, `http://1.2.3.4:18790` resolves to
`{scheme http, host 1.2.3.4, port 18790}` and `https://gw.example.com`
resolves to port 443. -/
theorem resolveGateway_defaults :
    (∀ p : ParsedUrl, p.hostname = none → (resolveGateway p).host = "127.0.0.1") ∧
    (∀ p : ParsedUrl, p.port = none →
      (resolveGateway p).port = (if p.scheme == "https" then 443 else 80)) ∧
    resolveGateway (urlparseModel "http://1.2.3.4:18790") =
      { scheme := "http", host := "1.2.3.4", port := 18790 } ∧
    (resolveGateway (urlparseModel "https://gw.example.com")).port = 443 := by
  refine ⟨?_, ?_, by decide, by decide⟩
  · intro p hp
    simp [resolveGateway, pyOrStrOpt, hp]
  · intro p hp
    simp [resolveGateway, pyOrNat, hp]

theorem resolveGateway_defaults_witness :
    (resolveGateway { scheme := "https", hostname := none, port := none }).host
        = "127.0.0.1" ∧
    (resolveGateway { scheme := "https", hostname := none, port := none }).port
        = (if ("https" : String) == "https" then 443 else 80) :=
  ⟨resolveGateway_defaults.1 { scheme := "https", hostname := none, port := none } rfl,
    resolveGateway_defaults.2.1 { scheme := "https", hostname := none, port := none } rfl⟩
